import Mathlib

/-!
Shallow embedding of the pop2010 proximity-query service.

The embedding covers the two realizations of the query found in the source:
the spatial-index-plus-external-store realization (`geosearch`, `popsearch`,
`popsummary`, handler `pop2010x`) and the full in-memory extended binary scan
(151-byte records, handler `pop2010bin`).  Go `float64` values are modelled
as rationals; the external geodesy primitives (`geomys.NewGeocentric.Forward`
and `geomys.Andoyer`) are modelled as the fields of an abstract `GeoModel`,
since they live in an external library, not in this repository.  Go machine
integers are modelled as `Int`, with explicit reduction mod 2^16 / 2^32 / 2^64
where the Go code uses `int16` / `int32` / `uint64` conversions.
-/

namespace Svc

/-- Model of the external geodesy primitives: `forward` is the geocentric
transform of a geographic `(lat, lon)` pair, `adist` is the Andoyer
ellipsoidal surface distance between two geographic points. -/
structure GeoModel where
  forward : ℚ × ℚ → ℚ × ℚ × ℚ
  adist : ℚ × ℚ → ℚ × ℚ → ℚ

/-- Embedding of the source's `round`: `y := math.Ceil(math.Abs(x)); if x < 0
then -y else y` — rounding away from zero to an integer. -/
def round (x : ℚ) : ℤ :=
  if x < 0 then -⌈|x|⌉ else ⌈|x|⌉

/-- Embedding of the source's `poploc` record: identifier, population,
geographic position, and precomputed geocentric integer coordinates. -/
structure Poploc where
  id : String
  pop : ℤ
  lat : ℚ
  lon : ℚ
  x : ℤ
  y : ℤ
  z : ℤ
deriving DecidableEq

/-- The bounding-cube admission test of the scan loops: three per-axis
range checks of the stored integer coordinates against the rounded cube
`[qx-dist, qx+dist] x [qy-dist, qy+dist] x [qz-dist, qz+dist]`. -/
def cubeok (G : GeoModel) (query : ℚ × ℚ) (dist : ℚ) (x y z : ℤ) : Bool :=
  let xyz := G.forward query
  decide (round (xyz.1 - dist) ≤ x ∧ x ≤ round (xyz.1 + dist)) &&
  decide (round (xyz.2.1 - dist) ≤ y ∧ y ≤ round (xyz.2.1 + dist)) &&
  decide (round (xyz.2.2 - dist) ≤ z ∧ z ≤ round (xyz.2.2 + dist))

/-- The full admission test of the `geosearch` loop body: the three cube
checks (each a `continue` in the source) followed by the exact Andoyer
distance check `Andoyer(spheroid, query, Geo(loc.lat, loc.lon)) <= dist`. -/
def geoaccept (G : GeoModel) (query : ℚ × ℚ) (dist : ℚ) (loc : Poploc) : Bool :=
  cubeok G query dist loc.x loc.y loc.z &&
  decide (G.adist query (loc.lat, loc.lon) ≤ dist)

/-- Embedding of `geosearch`: scan the dataset in order, appending the
identifier of every record that passes the cube checks and the exact
distance check. -/
def geosearch (G : GeoModel) (query : ℚ × ℚ) (dist : ℚ) : List Poploc → List String
  | [] => []
  | loc :: locs =>
    if geoaccept G query dist loc then loc.id :: geosearch G query dist locs
    else geosearch G query dist locs

/-- The records admitted by both filter phases, in dataset order. -/
def matchedLocs (G : GeoModel) (query : ℚ × ℚ) (dist : ℚ) (locs : List Poploc) : List Poploc :=
  locs.filter (geoaccept G query dist)

theorem geosearch_eq_filter_map (G : GeoModel) (query : ℚ × ℚ) (dist : ℚ) (locs : List Poploc) :
    geosearch G query dist locs = (matchedLocs G query dist locs).map Poploc.id := by
  induction locs with
  | nil => rfl
  | cons loc locs ih =>
    by_cases h : geoaccept G query dist loc = true
    · simp [geosearch, matchedLocs, List.filter, h] at ih ⊢
      exact ih
    · simp [geosearch, matchedLocs, List.filter, Bool.not_eq_true] at h ih ⊢
      simp [h, ih]

theorem round_intCast (n : ℤ) : round (n : ℚ) = n := by
  unfold round
  by_cases h : (n : ℚ) < 0
  · rw [if_pos h, abs_of_neg h, ← Int.cast_neg, Int.ceil_intCast, neg_neg]
  · rw [if_neg h, abs_of_nonneg (le_of_not_lt h)]
    exact_mod_cast Int.ceil_intCast n

theorem round_mono {a b : ℚ} (h : a ≤ b) : round a ≤ round b := by
  unfold round
  by_cases ha : a < 0
  · by_cases hb : b < 0
    · rw [if_pos ha, if_pos hb, neg_le_neg_iff]
      exact Int.ceil_le_ceil (by rw [abs_of_neg ha, abs_of_neg hb]; linarith)
    · rw [if_pos ha, if_neg hb]
      have h1 : (0 : ℤ) ≤ ⌈|b|⌉ := Int.ceil_nonneg (abs_nonneg b)
      have h2 : (0 : ℤ) ≤ ⌈|a|⌉ := Int.ceil_nonneg (abs_nonneg a)
      omega
  · rw [if_neg ha, if_neg (by push_neg at ha ⊢; linarith)]
    exact Int.ceil_le_ceil (by rw [abs_of_nonneg (le_of_not_lt ha),
      abs_of_nonneg (by linarith [le_of_not_lt ha])]; exact h)

theorem le_round_of_le {a : ℚ} {n : ℤ} (h : a ≤ (n : ℚ)) : round a ≤ n := by
  have := round_mono h
  rwa [round_intCast] at this

theorem round_le_of_le {a : ℚ} {n : ℤ} (h : (n : ℚ) ≤ a) : n ≤ round a := by
  have := round_mono h
  rwa [round_intCast] at this

/-- Embedding of `popsearch`: look up every key in the read-only store, in
order; the first failed lookup aborts the whole view transaction and makes
`popsearch` return the error with no value list. -/
def popsearch {α : Type} (db : String → Option α) : List String → Except Unit (List α)
  | [] => .ok []
  | k :: ks =>
    match db k with
    | none => .error ()
    | some v =>
      match popsearch db ks with
      | .error e => .error e
      | .ok vs => .ok (v :: vs)

/-- Accumulated demographic totals of `popsummary`: total population, male
and female totals, and the two 24-slot bucket arrays. -/
structure Summary where
  pop : ℤ
  mpop : ℤ
  fpop : ℤ
  mpyr : Fin 24 → ℤ
  fpyr : Fin 24 → ℤ

@[ext] theorem summaryExt {s t : Summary} (h1 : s.pop = t.pop) (h2 : s.mpop = t.mpop)
    (h3 : s.fpop = t.fpop) (h4 : ∀ k, s.mpyr k = t.mpyr k) (h5 : ∀ k, s.fpyr k = t.fpyr k) :
    s = t := by
  cases s; cases t
  simp only [Summary.mk.injEq]
  exact ⟨h1, h2, h3, funext h4, funext h5⟩

/-- Zero values of the named return variables of `popsummary`. -/
def summary0 : Summary :=
  { pop := 0, mpop := 0, fpop := 0, mpyr := fun _ => 0, fpyr := fun _ => 0 }

/-- One iteration of the `popsummary` loop over a comma-split record `r`:
`pop += r[0]`, `mpop += r[1]`, `fpop += r[25]`, `mpyr[k] += r[k+1]` and
`fpyr[k] += r[k+25]` for `k = 0..23`.  A record is modelled as the list of
its integer fields; a missing field reads as `0`. -/
def sumstep (acc : Summary) (r : List ℤ) : Summary :=
  { pop := acc.pop + r.getD 0 0
    mpop := acc.mpop + r.getD 1 0
    fpop := acc.fpop + r.getD 25 0
    mpyr := fun k => acc.mpyr k + r.getD (k.val + 1) 0
    fpyr := fun k => acc.fpyr k + r.getD (k.val + 25) 0 }

/-- Embedding of `popsummary`: a left-to-right accumulation over the fetched
records, starting from all-zero totals. -/
def popsummary (recs : List (List ℤ)) : Summary :=
  recs.foldl sumstep summary0

/-- The per-field reference sums of a record list. -/
def fieldSum (recs : List (List ℤ)) (i : ℕ) : ℤ :=
  (recs.map (fun r => r.getD i 0)).sum

theorem popsummary_go (recs : List (List ℤ)) : ∀ s : Summary,
    recs.foldl sumstep s =
      { pop := s.pop + fieldSum recs 0
        mpop := s.mpop + fieldSum recs 1
        fpop := s.fpop + fieldSum recs 25
        mpyr := fun k => s.mpyr k + fieldSum recs (k.val + 1)
        fpyr := fun k => s.fpyr k + fieldSum recs (k.val + 25) } := by
  induction recs with
  | nil => intro s; ext k <;> simp [fieldSum]
  | cons r recs ih =>
    intro s
    rw [List.foldl_cons, ih (sumstep s r)]
    ext k <;> simp [fieldSum, sumstep] <;> ring

/-- Field-level characterization of `popsummary`. -/
theorem popsummary_fields (recs : List (List ℤ)) :
    popsummary recs =
      { pop := fieldSum recs 0
        mpop := fieldSum recs 1
        fpop := fieldSum recs 25
        mpyr := fun k => fieldSum recs (k.val + 1)
        fpyr := fun k => fieldSum recs (k.val + 25) } := by
  rw [popsummary, popsummary_go]
  ext k <;> simp [summary0]

/-- Embedding of the JSON `pyramid` struct: 23 named age-bracket totals. -/
structure pyramid where
  Age00to04 : ℤ
  Age05to09 : ℤ
  Age10to14 : ℤ
  Age15to17 : ℤ
  Age18to19 : ℤ
  Age20 : ℤ
  Age21 : ℤ
  Age22to24 : ℤ
  Age25to29 : ℤ
  Age30to34 : ℤ
  Age35to39 : ℤ
  Age40to44 : ℤ
  Age45to49 : ℤ
  Age50to54 : ℤ
  Age55to59 : ℤ
  Age60to61 : ℤ
  Age62to64 : ℤ
  Age65to66 : ℤ
  Age67to69 : ℤ
  Age70to74 : ℤ
  Age75to79 : ℤ
  Age80to84 : ℤ
  Age85over : ℤ
deriving DecidableEq

/-- Embedding of `mkpyramid`: slot 0 of the 24-slot buffer is ignored, slots
1 to 23 fill the 23 named brackets in order. -/
def mkpyramid (buf : Fin 24 → ℤ) : pyramid :=
  { Age00to04 := buf 1
    Age05to09 := buf 2
    Age10to14 := buf 3
    Age15to17 := buf 4
    Age18to19 := buf 5
    Age20 := buf 6
    Age21 := buf 7
    Age22to24 := buf 8
    Age25to29 := buf 9
    Age30to34 := buf 10
    Age35to39 := buf 11
    Age40to44 := buf 12
    Age45to49 := buf 13
    Age50to54 := buf 14
    Age55to59 := buf 15
    Age60to61 := buf 16
    Age62to64 := buf 17
    Age65to66 := buf 18
    Age67to69 := buf 19
    Age70to74 := buf 20
    Age75to79 := buf 21
    Age80to84 := buf 22
    Age85over := buf 23 }

/-- The JSON result struct shared by both realizations of the query (the
wall-clock `duration_msec` field is not modelled). -/
structure PopResult where
  distance : ℤ
  lat : ℚ
  lon : ℚ
  blocks : ℕ
  pop2010 : ℤ
  fpop2010 : ℤ
  mpop2010 : ℤ
  fpyramid : pyramid
  mpyramid : pyramid
deriving DecidableEq

/-- HTTP-level outcome of a handler: a JSON result, an `HS400` rejection of
invalid input, or an `HS500` internal error. -/
inductive HResp (α : Type) where
  | ok : α → HResp α
  | s400 : HResp α
  | s500 : HResp α
deriving DecidableEq

/-- Embedding of the spatial-index-plus-store handler `pop2010`: range
validation of distance, latitude and longitude (each failure answering
`HS400`), then `geosearch` over the resident coordinate index, then
`popsearch` against the store (a failure answering `HS500`), then
`popsummary` and the result struct.  The dataset `locs` and the store `db`
are the process-wide state loaded by `init`. -/
def pop2010x (G : GeoModel) (locs : List Poploc) (db : String → Option (List ℤ))
    (distance : ℤ) (lat lon : ℚ) : HResp PopResult :=
  if ¬(1 ≤ distance ∧ distance ≤ 1000000) then .s400
  else if ¬(-90 ≤ lat ∧ lat ≤ 90) then .s400
  else if ¬(-180 ≤ lon ∧ lon ≤ 180) then .s400
  else
    let keys := geosearch G (lat, lon) (distance : ℚ) locs
    match popsearch db keys with
    | .error _ => .s500
    | .ok recs =>
      let s := popsummary recs
      .ok { distance := distance, lat := lat, lon := lon, blocks := recs.length,
            pop2010 := s.pop, fpop2010 := s.fpop, mpop2010 := s.mpop,
            fpyramid := mkpyramid s.fpyr, mpyramid := mkpyramid s.mpyr }

theorem popsearch_total {α : Type} (db : String → Option α) (pay : String → α)
    (keys : List String) (h : ∀ k ∈ keys, db k = some (pay k)) :
    popsearch db keys = .ok (keys.map pay) := by
  induction keys with
  | nil => rfl
  | cons k ks ih =>
    have hk : db k = some (pay k) := h k (List.mem_cons_self k ks)
    rw [List.map_cons, popsearch, hk, ih (fun x hx => h x (List.mem_cons_of_mem k hx))]

theorem popsearch_fail {α : Type} (db : String → Option α) (keys : List String)
    (h : ∃ k ∈ keys, db k = none) : popsearch db keys = .error () := by
  induction keys with
  | nil => simp at h
  | cons k ks ih =>
    obtain ⟨x, hx, hnone⟩ := h
    rcases List.mem_cons.mp hx with rfl | hxs
    · rw [popsearch, hnone]
    · rw [popsearch]
      cases hdb : db k with
      | none => rfl
      | some v => rw [ih ⟨x, hxs, hnone⟩]

/-- Reinterpretation of an integer in 16-bit signed two-complement
arithmetic: the unique value congruent mod 2^16 lying in [-2^15, 2^15). -/
def wrap16 (n : ℤ) : ℤ := (n + 2 ^ 15) % 2 ^ 16 - 2 ^ 15

/-- Reinterpretation of an integer in 32-bit signed two-complement
arithmetic. -/
def wrap32 (n : ℤ) : ℤ := (n + 2 ^ 31) % 2 ^ 32 - 2 ^ 31

/-- Reinterpretation of an integer in 64-bit signed two-complement
arithmetic (the `int64(binary.LittleEndian.Uint64(..))` conversion). -/
def wrap64 (n : ℤ) : ℤ := (n + 2 ^ 63) % 2 ^ 64 - 2 ^ 63

theorem wrap16_add_left (a b : ℤ) : wrap16 (wrap16 a + b) = wrap16 (a + b) := by
  unfold wrap16; omega

theorem wrap16_wrap16 (a : ℤ) : wrap16 (wrap16 a) = wrap16 a := by
  unfold wrap16; omega

theorem wrap32_add_left (a b : ℤ) : wrap32 (wrap32 a + b) = wrap32 (a + b) := by
  unfold wrap32; omega

theorem wrap32_wrap32 (a : ℤ) : wrap32 (wrap32 a) = wrap32 a := by
  unfold wrap32; omega

/-- Byte offsets of the extended 151-byte binary record layout, exactly as
declared in the scan handler's `const` block. -/
def colid : ℕ := 0

def colpop : ℕ := colid + 9

def collat : ℕ := colpop + 4

def collon : ℕ := collat + 8

def colx : ℕ := collon + 8

def coly : ℕ := colx + 8

def colz : ℕ := coly + 8

def colmpop : ℕ := colz + 8 + 2

def colfpop : ℕ := colz + 8 + 2 + 2 * 24

/-- Length of one extended binary record: `var record [151]byte`. -/
def recordLen : ℕ := 151

/-- A binary record is the list of its bytes; a slice `record[i : i+n]`. -/
def slice (b : List ℕ) (i n : ℕ) : List ℕ := (b.drop i).take n

/-- Little-endian 16-bit read at offset `i` (missing bytes read as 0). -/
def leUint16 (b : List ℕ) (i : ℕ) : ℕ := b.getD i 0 + 2 ^ 8 * b.getD (i + 1) 0

/-- Little-endian 32-bit read at offset `i`. -/
def leUint32 (b : List ℕ) (i : ℕ) : ℕ := leUint16 b i + 2 ^ 16 * leUint16 b (i + 2)

/-- Little-endian 64-bit read at offset `i`. -/
def leUint64 (b : List ℕ) (i : ℕ) : ℕ := leUint32 b i + 2 ^ 32 * leUint32 b (i + 4)

/-- The `int32(binary.LittleEndian.Uint32(pops))` population read. -/
def decPop (b : List ℕ) : ℤ := wrap32 (leUint32 b colpop)

/-- The `int16(binary.LittleEndian.Uint16(mpops))` male-population read at
offset `colmpop`. -/
def decMpop (b : List ℕ) : ℤ := wrap16 (leUint16 b colmpop)

/-- The `int16(binary.LittleEndian.Uint16(fpops))` female-population read at
offset `colfpop`. -/
def decFpop (b : List ℕ) : ℤ := wrap16 (leUint16 b colfpop)

/-- The male pyramid slot read `int16(Uint16(record[colmpop+2*ix :
colmpop+2*(ix+1)]))` of the accumulation loop. -/
def decMbucket (b : List ℕ) (ix : ℕ) : ℤ := wrap16 (leUint16 b (colmpop + 2 * ix))

/-- The female pyramid slot read `int16(Uint16(record[colfpop+2*ix :
colfpop+2*(ix+1)]))` of the accumulation loop. -/
def decFbucket (b : List ℕ) (ix : ℕ) : ℤ := wrap16 (leUint16 b (colfpop + 2 * ix))

/-- The `int64(binary.LittleEndian.Uint64(xs))` coordinate reads. -/
def decX (b : List ℕ) : ℤ := wrap64 (leUint64 b colx)

def decY (b : List ℕ) : ℤ := wrap64 (leUint64 b coly)

def decZ (b : List ℕ) : ℤ := wrap64 (leUint64 b colz)

/-- The 9-byte ASCII identifier `record[colid : colid+9]`. -/
def decId (b : List ℕ) : String := String.mk ((slice b colid 9).map Char.ofNat)

/-- An abstract model of `math.Float64frombits(binary.LittleEndian.Uint64 _)`
applied to an 8-byte slice; the IEEE-754 bit-level decoding itself is
external to the claims, so it is a parameter of the scan. -/
def decLat (f64 : List ℕ → ℚ) (b : List ℕ) : ℚ := f64 (slice b collat 8)

def decLon (f64 : List ℕ → ℚ) (b : List ℕ) : ℚ := f64 (slice b collon 8)

/-- The admission test of the extended binary scan loop body: the three
cube checks on the decoded `x, y, z`, then the Andoyer check on the decoded
latitude and longitude. -/
def binaccept (G : GeoModel) (f64 : List ℕ → ℚ) (query : ℚ × ℚ) (dist : ℚ)
    (b : List ℕ) : Bool :=
  cubeok G query dist (decX b) (decY b) (decZ b) &&
  decide (G.adist query (decLat f64 b, decLon f64 b) ≤ dist)

/-- The running state of the extended binary scan: matched-block counter
(`filter2`), the three 32-bit population accumulators, and the two arrays
of 16-bit pyramid accumulators. -/
structure ScanState where
  filter2 : ℕ
  population : ℤ
  mpopulation : ℤ
  fpopulation : ℤ
  mpyr : Fin 24 → ℤ
  fpyr : Fin 24 → ℤ

@[ext] theorem scanStateExt {s t : ScanState} (h0 : s.filter2 = t.filter2)
    (h1 : s.population = t.population) (h2 : s.mpopulation = t.mpopulation)
    (h3 : s.fpopulation = t.fpopulation) (h4 : ∀ k, s.mpyr k = t.mpyr k)
    (h5 : ∀ k, s.fpyr k = t.fpyr k) : s = t := by
  cases s; cases t
  simp only [ScanState.mk.injEq]
  exact ⟨h0, h1, h2, h3, funext h4, funext h5⟩

/-- The zero values of the scan's accumulator variables. -/
def scanstate0 : ScanState :=
  { filter2 := 0, population := 0, mpopulation := 0, fpopulation := 0,
    mpyr := fun _ => 0, fpyr := fun _ => 0 }

/-- Accumulation of one matched record of the extended binary scan:
`population += pop` in `int32` arithmetic, `mpopulation += int32(mpop)` and
`fpopulation += int32(fpop)` in `int32` arithmetic where `mpop`/`fpop` are
the `int16` reads at `colmpop`/`colfpop`, each pyramid slot `+=` its `int16`
read in `int16` arithmetic, and `filter2++`. -/
def scanadd (st : ScanState) (b : List ℕ) : ScanState :=
  { filter2 := st.filter2 + 1
    population := wrap32 (st.population + decPop b)
    mpopulation := wrap32 (st.mpopulation + decMpop b)
    fpopulation := wrap32 (st.fpopulation + decFpop b)
    mpyr := fun ix => wrap16 (st.mpyr ix + decMbucket b ix.val)
    fpyr := fun ix => wrap16 (st.fpyr ix + decFbucket b ix.val) }

/-- One iteration of the extended binary scan loop: a record failing a cube
check or the distance check leaves the state unchanged (`continue`); a
matched record is accumulated. -/
def scanstep (G : GeoModel) (f64 : List ℕ → ℚ) (query : ℚ × ℚ) (dist : ℚ)
    (st : ScanState) (b : List ℕ) : ScanState :=
  if binaccept G f64 query dist b then scanadd st b
  else st

/-- Embedding of the extended binary scan: a left-to-right pass over all
records of the dataset file. -/
def extScan (G : GeoModel) (f64 : List ℕ → ℚ) (query : ℚ × ℚ) (dist : ℚ)
    (recs : List (List ℕ)) : ScanState :=
  recs.foldl (scanstep G f64 query dist) scanstate0

/-- The byte records admitted by both filter phases, in file order. -/
def matchedBin (G : GeoModel) (f64 : List ℕ → ℚ) (query : ℚ × ℚ) (dist : ℚ)
    (recs : List (List ℕ)) : List (List ℕ) :=
  recs.filter (binaccept G f64 query dist)

/-- Sum of a decoded field over a list of byte records. -/
def decSum (f : List ℕ → ℤ) (recs : List (List ℕ)) : ℤ := (recs.map f).sum

theorem decSum_nil (f : List ℕ → ℤ) : decSum f [] = 0 := rfl

theorem decSum_cons (f : List ℕ → ℤ) (b : List ℕ) (l : List (List ℕ)) :
    decSum f (b :: l) = f b + decSum f l := by
  simp [decSum]

/-- Embedding of the extended binary scan handler `pop2010`: the same range
validation as the other realization, then the scan and the result struct
(`Blocks` is `filter2`, the population fields are the three accumulators,
the pyramids come from `mkpyramid`). -/
def pop2010bin (G : GeoModel) (f64 : List ℕ → ℚ) (recs : List (List ℕ))
    (distance : ℤ) (lat lon : ℚ) : HResp PopResult :=
  if ¬(1 ≤ distance ∧ distance ≤ 1000000) then .s400
  else if ¬(-90 ≤ lat ∧ lat ≤ 90) then .s400
  else if ¬(-180 ≤ lon ∧ lon ≤ 180) then .s400
  else
    let st := extScan G f64 (lat, lon) (distance : ℚ) recs
    .ok { distance := distance, lat := lat, lon := lon, blocks := st.filter2,
          pop2010 := st.population, fpop2010 := st.fpopulation,
          mpop2010 := st.mpopulation,
          fpyramid := mkpyramid st.fpyr, mpyramid := mkpyramid st.mpyr }

theorem extScan_go (G : GeoModel) (f64 : List ℕ → ℚ) (query : ℚ × ℚ) (dist : ℚ)
    (recs : List (List ℕ)) : ∀ st : ScanState,
    st.population = wrap32 st.population →
    st.mpopulation = wrap32 st.mpopulation →
    st.fpopulation = wrap32 st.fpopulation →
    (∀ k : Fin 24, st.mpyr k = wrap16 (st.mpyr k)) →
    (∀ k : Fin 24, st.fpyr k = wrap16 (st.fpyr k)) →
    recs.foldl (scanstep G f64 query dist) st =
      { filter2 := st.filter2 + (matchedBin G f64 query dist recs).length
        population := wrap32 (st.population + decSum decPop (matchedBin G f64 query dist recs))
        mpopulation := wrap32 (st.mpopulation + decSum decMpop (matchedBin G f64 query dist recs))
        fpopulation := wrap32 (st.fpopulation + decSum decFpop (matchedBin G f64 query dist recs))
        mpyr := fun k => wrap16 (st.mpyr k + decSum (decMbucket · k.val) (matchedBin G f64 query dist recs))
        fpyr := fun k => wrap16 (st.fpyr k + decSum (decFbucket · k.val) (matchedBin G f64 query dist recs)) } := by
  induction recs with
  | nil =>
    intro st h1 h2 h3 h4 h5
    refine scanStateExt ?_ ?_ ?_ ?_ ?_ ?_ <;> dsimp only [List.foldl_nil]
    · simp [matchedBin]
    · simpa [matchedBin, decSum] using h1
    · simpa [matchedBin, decSum] using h2
    · simpa [matchedBin, decSum] using h3
    · intro k; simpa [matchedBin, decSum] using h4 k
    · intro k; simpa [matchedBin, decSum] using h5 k
  | cons b recs ih =>
    intro st h1 h2 h3 h4 h5
    rw [List.foldl_cons]
    by_cases hb : binaccept G f64 query dist b = true
    · have hstep : scanstep G f64 query dist st b = scanadd st b := by
        rw [scanstep, if_pos hb]
      have hm : matchedBin G f64 query dist (b :: recs) =
          b :: matchedBin G f64 query dist recs := by
        simp [matchedBin, List.filter_cons, hb]
      rw [hstep, ih (scanadd st b)
        (by dsimp only [scanadd]; rw [wrap32_wrap32])
        (by dsimp only [scanadd]; rw [wrap32_wrap32])
        (by dsimp only [scanadd]; rw [wrap32_wrap32])
        (by intro k; dsimp only [scanadd]; rw [wrap16_wrap16])
        (by intro k; dsimp only [scanadd]; rw [wrap16_wrap16]), hm]
      refine scanStateExt ?_ ?_ ?_ ?_ ?_ ?_ <;> dsimp only [scanadd]
      · rw [List.length_cons]; omega
      · rw [decSum_cons, wrap32_add_left, add_assoc]
      · rw [decSum_cons, wrap32_add_left, add_assoc]
      · rw [decSum_cons, wrap32_add_left, add_assoc]
      · intro k; rw [decSum_cons, wrap16_add_left, add_assoc]
      · intro k; rw [decSum_cons, wrap16_add_left, add_assoc]
    · have hstep : scanstep G f64 query dist st b = st := by
        rw [scanstep, if_neg hb]
      have hm : matchedBin G f64 query dist (b :: recs) =
          matchedBin G f64 query dist recs := by
        have hb' : binaccept G f64 query dist b = false := by
          simpa [Bool.not_eq_true] using hb
        simp [matchedBin, List.filter_cons, hb']
      rw [hstep, ih st h1 h2 h3 h4 h5, hm]

theorem extScan_fields (G : GeoModel) (f64 : List ℕ → ℚ) (query : ℚ × ℚ) (dist : ℚ)
    (recs : List (List ℕ)) :
    extScan G f64 query dist recs =
      { filter2 := (matchedBin G f64 query dist recs).length
        population := wrap32 (decSum decPop (matchedBin G f64 query dist recs))
        mpopulation := wrap32 (decSum decMpop (matchedBin G f64 query dist recs))
        fpopulation := wrap32 (decSum decFpop (matchedBin G f64 query dist recs))
        mpyr := fun k => wrap16 (decSum (decMbucket · k.val) (matchedBin G f64 query dist recs))
        fpyr := fun k => wrap16 (decSum (decFbucket · k.val) (matchedBin G f64 query dist recs)) } := by
  rw [extScan, extScan_go G f64 query dist recs scanstate0 (by simp [scanstate0, wrap32])
    (by simp [scanstate0, wrap32]) (by simp [scanstate0, wrap32])
    (by intro k; simp [scanstate0, wrap16]) (by intro k; simp [scanstate0, wrap16])]
  refine scanStateExt ?_ ?_ ?_ ?_ ?_ ?_ <;> dsimp only [scanstate0] <;> simp

/-- A degenerate geodesy model used to evaluate the embedding on concrete
inputs: everything sits at the geocentric origin at distance zero. -/
def G0 : GeoModel := ⟨fun _ => (0, 0, 0), fun _ _ => 0⟩

/-- A small planar geodesy model used to evaluate the embedding on concrete
inputs: `forward (lat, lon) = (lat, lon, 0)` and the surface distance is the
taxicab distance, which dominates every per-axis displacement. -/
def G1 : GeoModel :=
  ⟨fun p => (p.1, p.2, 0), fun p q => |p.1 - q.1| + |p.2 - q.2|⟩

/-- A degenerate float decoder for concrete evaluation. -/
def f640 : List ℕ → ℚ := fun _ => 0

end Svc

namespace Svc

/-- C8: a query whose radius lies outside [1,1000000], or whose latitude
lies outside [-90,90], or whose longitude lies outside [-180,180], is
rejected with HS400 (the validation error) by both realizations of the
handler, whatever the dataset and the store hold — so no scan runs and no
aggregate is computed. -/
theorem C8_validation_rejects (G : GeoModel) (f64 : List ℕ → ℚ) (recs : List (List ℕ))
    (locs : List Poploc) (db : String → Option (List ℤ)) (distance : ℤ) (lat lon : ℚ)
    (h : ¬(1 ≤ distance ∧ distance ≤ 1000000) ∨ ¬(-90 ≤ lat ∧ lat ≤ 90) ∨
      ¬(-180 ≤ lon ∧ lon ≤ 180)) :
    pop2010x G locs db distance lat lon = .s400 ∧
    pop2010bin G f64 recs distance lat lon = .s400 := by
  by_cases h1 : ¬(1 ≤ distance ∧ distance ≤ 1000000)
  · rw [pop2010x, if_pos h1, pop2010bin, if_pos h1]
    exact ⟨rfl, rfl⟩
  · by_cases h2 : ¬(-90 ≤ lat ∧ lat ≤ 90)
    · rw [pop2010x, if_neg h1, if_pos h2, pop2010bin, if_neg h1, if_pos h2]
      exact ⟨rfl, rfl⟩
    · have h3 : ¬(-180 ≤ lon ∧ lon ≤ 180) := by tauto
      rw [pop2010x, if_neg h1, if_neg h2, if_pos h3,
        pop2010bin, if_neg h1, if_neg h2, if_pos h3]
      exact ⟨rfl, rfl⟩

/-- Witness for C8 at the spec's concrete scenario: radius 3000000 exceeds
the domain ceiling and is rejected by both handlers. -/
theorem C8_validation_rejects_witness :
    pop2010x G0 [] (fun _ => none) 3000000 0 0 = .s400 ∧
    pop2010bin G0 f640 [] 3000000 0 0 = .s400 :=
  C8_validation_rejects G0 f640 [] [] (fun _ => none) 3000000 0 0
    (Or.inl (by decide))

/-- C9: in the spatial-index-plus-store realization, if the store lookup
fails for some identifier produced by the spatial filter, the whole query
answers HS500 — no aggregate result is produced and no record is silently
skipped. -/
theorem C9_store_failure_aborts (G : GeoModel) (locs : List Poploc)
    (db : String → Option (List ℤ)) (distance : ℤ) (lat lon : ℚ)
    (hd : 1 ≤ distance ∧ distance ≤ 1000000) (hlat : -90 ≤ lat ∧ lat ≤ 90)
    (hlon : -180 ≤ lon ∧ lon ≤ 180)
    (hfail : ∃ k ∈ geosearch G (lat, lon) (distance : ℚ) locs, db k = none) :
    pop2010x G locs db distance lat lon = .s500 := by
  rw [pop2010x, if_neg (not_not_intro hd), if_neg (not_not_intro hlat),
    if_neg (not_not_intro hlon)]
  simp only [popsearch_fail db _ hfail]

/-- Witness for C9: one record at the query point whose identifier is
absent from the store; the query answers HS500. -/
theorem C9_store_failure_aborts_witness :
    pop2010x G0 [⟨"A", 5, 0, 0, 0, 0, 0⟩] (fun _ => none) 1 0 0 = .s500 :=
  C9_store_failure_aborts G0 [⟨"A", 5, 0, 0, 0, 0, 0⟩] (fun _ => none) 1 0 0
    (by decide) (by decide) (by decide)
    ⟨"A", by with_unfolding_all decide, rfl⟩

theorem fieldSum_append (l1 l2 : List (List ℤ)) (i : ℕ) :
    fieldSum (l1 ++ l2) i = fieldSum l1 i + fieldSum l2 i := by
  simp [fieldSum]

theorem fieldSum_perm {l1 l2 : List (List ℤ)} (h : l1.Perm l2) (i : ℕ) :
    fieldSum l1 i = fieldSum l2 i :=
  (h.map _).sum_eq

/-- Concrete records of the embedding used to evaluate theorems: a record
at the query origin and a record far away. -/
def locA : Poploc := ⟨"A", 10, 0, 0, 0, 0, 0⟩

def locB : Poploc := ⟨"B", 7, 50, 60, 50, 60, 0⟩

/-- A concrete store payload used to evaluate theorems. -/
def pay1 : String → List ℤ := fun _ => [2, 3]

/-- Full characterization of the spatial-index-plus-store handler on a
store that answers every lookup. -/
theorem pop2010x_total_eq (G : GeoModel) (locs : List Poploc) (pay : String → List ℤ)
    (distance : ℤ) (lat lon : ℚ)
    (hd : 1 ≤ distance ∧ distance ≤ 1000000) (hlat : -90 ≤ lat ∧ lat ≤ 90)
    (hlon : -180 ≤ lon ∧ lon ≤ 180) :
    pop2010x G locs (fun s => some (pay s)) distance lat lon =
      .ok { distance := distance, lat := lat, lon := lon
            blocks := (matchedLocs G (lat, lon) (distance : ℚ) locs).length
            pop2010 := fieldSum
              ((matchedLocs G (lat, lon) (distance : ℚ) locs).map (fun loc => pay loc.id)) 0
            fpop2010 := fieldSum
              ((matchedLocs G (lat, lon) (distance : ℚ) locs).map (fun loc => pay loc.id)) 25
            mpop2010 := fieldSum
              ((matchedLocs G (lat, lon) (distance : ℚ) locs).map (fun loc => pay loc.id)) 1
            fpyramid := mkpyramid (fun k => fieldSum
              ((matchedLocs G (lat, lon) (distance : ℚ) locs).map (fun loc => pay loc.id)) (k.val + 25))
            mpyramid := mkpyramid (fun k => fieldSum
              ((matchedLocs G (lat, lon) (distance : ℚ) locs).map (fun loc => pay loc.id)) (k.val + 1)) } := by
  rw [pop2010x, if_neg (not_not_intro hd), if_neg (not_not_intro hlat),
    if_neg (not_not_intro hlon)]
  simp only [popsearch_total (fun s => some (pay s)) pay _ (fun k _ => rfl)]
  rw [geosearch_eq_filter_map, List.map_map, popsummary_fields, List.length_map]
  rfl

/-- C3: with every store lookup succeeding, an in-domain query returns the
result whose matched-block count is the number of records passing both
filter phases and whose every aggregate field — total population, male and
female totals, and each output pyramid bucket — is the corresponding sum
over exactly those records' payloads. -/
theorem C3_aggregate_sums (G : GeoModel) (locs : List Poploc) (pay : String → List ℤ)
    (distance : ℤ) (lat lon : ℚ)
    (hd : 1 ≤ distance ∧ distance ≤ 1000000) (hlat : -90 ≤ lat ∧ lat ≤ 90)
    (hlon : -180 ≤ lon ∧ lon ≤ 180) :
    pop2010x G locs (fun s => some (pay s)) distance lat lon =
      .ok { distance := distance, lat := lat, lon := lon
            blocks := (matchedLocs G (lat, lon) (distance : ℚ) locs).length
            pop2010 := fieldSum
              ((matchedLocs G (lat, lon) (distance : ℚ) locs).map (fun loc => pay loc.id)) 0
            fpop2010 := fieldSum
              ((matchedLocs G (lat, lon) (distance : ℚ) locs).map (fun loc => pay loc.id)) 25
            mpop2010 := fieldSum
              ((matchedLocs G (lat, lon) (distance : ℚ) locs).map (fun loc => pay loc.id)) 1
            fpyramid := mkpyramid (fun k => fieldSum
              ((matchedLocs G (lat, lon) (distance : ℚ) locs).map (fun loc => pay loc.id)) (k.val + 25))
            mpyramid := mkpyramid (fun k => fieldSum
              ((matchedLocs G (lat, lon) (distance : ℚ) locs).map (fun loc => pay loc.id)) (k.val + 1)) } :=
  pop2010x_total_eq G locs pay distance lat lon hd hlat hlon

/-- Witness for C3 at a concrete two-record dataset, of which one record
matches. -/
theorem C3_aggregate_sums_witness :
    pop2010x G1 [locA, locB] (fun s => some (pay1 s)) 1 0 0 =
      .ok { distance := 1, lat := 0, lon := 0
            blocks := (matchedLocs G1 (0, 0) ((1 : ℤ) : ℚ) [locA, locB]).length
            pop2010 := fieldSum
              ((matchedLocs G1 (0, 0) ((1 : ℤ) : ℚ) [locA, locB]).map (fun loc => pay1 loc.id)) 0
            fpop2010 := fieldSum
              ((matchedLocs G1 (0, 0) ((1 : ℤ) : ℚ) [locA, locB]).map (fun loc => pay1 loc.id)) 25
            mpop2010 := fieldSum
              ((matchedLocs G1 (0, 0) ((1 : ℤ) : ℚ) [locA, locB]).map (fun loc => pay1 loc.id)) 1
            fpyramid := mkpyramid (fun k => fieldSum
              ((matchedLocs G1 (0, 0) ((1 : ℤ) : ℚ) [locA, locB]).map (fun loc => pay1 loc.id)) (k.val + 25))
            mpyramid := mkpyramid (fun k => fieldSum
              ((matchedLocs G1 (0, 0) ((1 : ℤ) : ℚ) [locA, locB]).map (fun loc => pay1 loc.id)) (k.val + 1)) } :=
  C3_aggregate_sums G1 [locA, locB] pay1 1 0 0 (by decide) (by decide) (by decide)

/-- Component-wise addition of two demographic summaries. -/
def addSummary (s t : Summary) : Summary :=
  { pop := s.pop + t.pop, mpop := s.mpop + t.mpop, fpop := s.fpop + t.fpop,
    mpyr := fun k => s.mpyr k + t.mpyr k, fpyr := fun k => s.fpyr k + t.fpyr k }

/-- The full aggregate of the matched payload list: the matched count
(`len(recs)` in the handler) together with the `popsummary` totals. -/
def popAgg (recs : List (List ℤ)) : ℕ × Summary := (recs.length, popsummary recs)

/-- Component-wise merge of two shard aggregates. -/
def addAgg (a b : ℕ × Summary) : ℕ × Summary := (a.1 + b.1, addSummary a.2 b.2)

theorem popsummary_append (l1 l2 : List (List ℤ)) :
    popsummary (l1 ++ l2) = addSummary (popsummary l1) (popsummary l2) := by
  rw [popsummary_fields, popsummary_fields, popsummary_fields]
  refine summaryExt ?_ ?_ ?_ ?_ ?_ <;> dsimp only [addSummary] <;>
    try intro k
  all_goals rw [fieldSum_append]

theorem popAgg_append (l1 l2 : List (List ℤ)) :
    popAgg (l1 ++ l2) = addAgg (popAgg l1) (popAgg l2) := by
  rw [popAgg, popAgg, popAgg, addAgg, List.length_append, popsummary_append]

theorem addSummary_summary0 (s : Summary) : addSummary s summary0 = s := by
  refine summaryExt ?_ ?_ ?_ ?_ ?_ <;> dsimp only [addSummary, summary0] <;>
    try intro k
  all_goals rw [add_zero]

theorem summary0_addSummary (s : Summary) : addSummary summary0 s = s := by
  refine summaryExt ?_ ?_ ?_ ?_ ?_ <;> dsimp only [addSummary, summary0] <;>
    try intro k
  all_goals rw [zero_add]

theorem addSummary_assoc (s t u : Summary) :
    addSummary (addSummary s t) u = addSummary s (addSummary t u) := by
  refine summaryExt ?_ ?_ ?_ ?_ ?_ <;> dsimp only [addSummary] <;>
    try intro k
  all_goals rw [add_assoc]

theorem addAgg_assoc (a b c : ℕ × Summary) :
    addAgg (addAgg a b) c = addAgg a (addAgg b c) := by
  rw [addAgg, addAgg, addAgg, addAgg, addSummary_assoc, Nat.add_assoc]

theorem foldAgg_go (shards : List (List (List ℤ))) : ∀ a : ℕ × Summary,
    (shards.map popAgg).foldl addAgg a = addAgg a (popAgg shards.flatten) := by
  induction shards with
  | nil =>
    intro a
    simp [popAgg, popsummary, addAgg, addSummary_summary0]
  | cons sh shards ih =>
    intro a
    rw [List.map_cons, List.foldl_cons, ih (addAgg a (popAgg sh)), List.flatten_cons,
      popAgg_append, addAgg_assoc]

theorem popsummary_perm {l1 l2 : List (List ℤ)} (h : l1.Perm l2) :
    popsummary l1 = popsummary l2 := by
  rw [popsummary_fields, popsummary_fields]
  refine summaryExt ?_ ?_ ?_ ?_ ?_ <;> try intro k
  all_goals exact fieldSum_perm h _

/-- C5: partitioning the matched payload multiset into arbitrary shards,
aggregating each shard independently, and merging the shard aggregates
component-wise equals the single-pass aggregation of the whole list; and
the single-pass aggregation is invariant under every reordering of the
scan. -/
theorem C5_shard_merge_order_free :
    (∀ shards : List (List (List ℤ)),
      (shards.map popAgg).foldl addAgg (0, summary0) = popAgg shards.flatten) ∧
    (∀ recs recs' : List (List ℤ), recs.Perm recs' → popAgg recs = popAgg recs') := by
  constructor
  · intro shards
    rw [foldAgg_go shards (0, summary0), addAgg, summary0_addSummary]
    rw [show ((0 : ℕ) + (popAgg shards.flatten).1) = (popAgg shards.flatten).1 from Nat.zero_add _]
  · intro recs recs' h
    rw [popAgg, popAgg, h.length_eq, popsummary_perm h]

/-- Witness for C5: a concrete two-shard partition and a concrete
reordering of a two-record list. -/
theorem C5_shard_merge_order_free_witness :
    (([[[5, 6]], [[7], [8]]].map popAgg).foldl addAgg (0, summary0) =
      popAgg ([[[5, 6]], [[7], [8]]] : List (List (List ℤ))).flatten) ∧
    popAgg [[1, 2], [3]] = popAgg [[3], [1, 2]] :=
  ⟨C5_shard_merge_order_free.1 [[[5, 6]], [[7], [8]]],
   C5_shard_merge_order_free.2 [[1, 2], [3]] [[3], [1, 2]] (by decide)⟩

/-- C10: in the extended binary scan every pyramid bucket accumulates in
16-bit signed arithmetic — the final bucket value is the sum of the matched
records' 16-bit bucket fields reduced mod 2^16 into [-2^15, 2^15), so a true
sum above 32767 wraps — while the population and the two gender totals
accumulate in 32-bit arithmetic. -/
theorem C10_pyramid_wrap16 (G : GeoModel) (f64 : List ℕ → ℚ) (query : ℚ × ℚ)
    (dist : ℚ) (recs : List (List ℕ)) :
    (∀ k : Fin 24, (extScan G f64 query dist recs).mpyr k =
      wrap16 (decSum (decMbucket · k.val) (matchedBin G f64 query dist recs))) ∧
    (∀ k : Fin 24, (extScan G f64 query dist recs).fpyr k =
      wrap16 (decSum (decFbucket · k.val) (matchedBin G f64 query dist recs))) ∧
    (extScan G f64 query dist recs).population =
      wrap32 (decSum decPop (matchedBin G f64 query dist recs)) ∧
    (extScan G f64 query dist recs).mpopulation =
      wrap32 (decSum decMpop (matchedBin G f64 query dist recs)) ∧
    (extScan G f64 query dist recs).fpopulation =
      wrap32 (decSum decFpop (matchedBin G f64 query dist recs)) := by
  rw [extScan_fields]
  exact ⟨fun k => rfl, fun k => rfl, rfl, rfl, rfl⟩

/-- C7 counterexample: the decoder's male and female population reads are
the very same reads as the pyramids' bucket-0 slots (identical byte
offsets), and the 151-byte record cannot hold the claimed layout — compact
fields plus a dedicated 16-bit male population, 24 male slots, a dedicated
16-bit female population and 24 female slots need 153 bytes. -/
theorem C7_layout_cex :
    (decMpop = fun b => decMbucket b 0) ∧ (decFpop = fun b => decFbucket b 0) ∧
    recordLen ≠ 9 + 4 + 8 + 8 + 8 + 8 + 8 + 2 + 2 * 24 + 2 + 2 * 24 :=
  ⟨rfl, rfl, by decide⟩

/-- C7 amended: the extended record is 151 bytes — the 53 compact bytes,
then 2 bytes the decoder skips, then 24 male 16-bit slots and 24 female
16-bit slots filling the rest with no separate population fields; the
decoder reads the male and female population totals from the pyramids'
bucket-0 slots, and the scan's gender accumulators therefore accumulate
exactly the bucket-0 reads. -/
theorem C7_layout_actual (b : List ℕ) (G : GeoModel) (f64 : List ℕ → ℚ)
    (query : ℚ × ℚ) (dist : ℚ) (recs : List (List ℕ)) :
    recordLen = 151 ∧
    colpop = colid + 9 ∧ collat = colpop + 4 ∧ collon = collat + 8 ∧
    colx = collon + 8 ∧ coly = colx + 8 ∧ colz = coly + 8 ∧
    colmpop = colz + 8 + 2 ∧ colmpop + 2 * 24 = colfpop ∧
    colfpop + 2 * 24 = recordLen ∧
    decMpop b = decMbucket b 0 ∧ decFpop b = decFbucket b 0 ∧
    (extScan G f64 query dist recs).mpopulation =
      wrap32 (decSum (fun r => decMbucket r 0) (matchedBin G f64 query dist recs)) ∧
    (extScan G f64 query dist recs).fpopulation =
      wrap32 (decSum (fun r => decFbucket r 0) (matchedBin G f64 query dist recs)) := by
  refine ⟨rfl, rfl, rfl, rfl, rfl, rfl, rfl, rfl, by decide, by decide, rfl, rfl, ?_, ?_⟩
  · rw [extScan_fields]
    rfl
  · rw [extScan_fields]
    rfl

/-- Shared cube-containment argument: if every per-axis displacement of the
record's true geocentric position from the query's is bounded by the
surface distance, the stored coordinates are the record's rounded true
coordinates, and the surface distance is at most `d`, then the record
passes all three rounded cube checks. -/
theorem cubeok_of_bounds (G : GeoModel) (q p : ℚ × ℚ) (x y z : ℤ) (d : ℚ)
    (hax : |(G.forward p).1 - (G.forward q).1| ≤ G.adist q p)
    (hay : |(G.forward p).2.1 - (G.forward q).2.1| ≤ G.adist q p)
    (haz : |(G.forward p).2.2 - (G.forward q).2.2| ≤ G.adist q p)
    (hx : x = round (G.forward p).1) (hy : y = round (G.forward p).2.1)
    (hz : z = round (G.forward p).2.2)
    (hdist : G.adist q p ≤ d) :
    cubeok G q d x y z = true := by
  have key : ∀ a b : ℚ, |a - b| ≤ G.adist q p →
      round (b - d) ≤ round a ∧ round a ≤ round (b + d) := by
    intro a b hab
    obtain ⟨hl, hr⟩ := abs_le.mp hab
    exact ⟨round_mono (by linarith), round_mono (by linarith)⟩
  subst hx hy hz
  simp only [cubeok, Bool.and_eq_true, decide_eq_true_eq]
  exact ⟨⟨⟨(key _ _ hax).1, (key _ _ hax).2⟩, (key _ _ hay).1, (key _ _ hay).2⟩,
    (key _ _ haz).1, (key _ _ haz).2⟩

/-- C2: for an in-domain radius, a record whose stored integer coordinates
are the rounded true geocentric coordinates and whose surface distance to
the query is at most the radius always lies inside the rounded bounding
cube (the cube is a conservative superset of the true match set); moreover
the boundary rounding never rounds past an integer point inward: every
integer at least `c - r` is at least the rounded lower bound and every
integer at most `c + r` is at most the rounded upper bound. -/
theorem C2_cube_conservative (G : GeoModel) (q p : ℚ × ℚ) (x y z : ℤ) (distance : ℤ)
    (hd : 1 ≤ distance ∧ distance ≤ 1000000)
    (hax : |(G.forward p).1 - (G.forward q).1| ≤ G.adist q p)
    (hay : |(G.forward p).2.1 - (G.forward q).2.1| ≤ G.adist q p)
    (haz : |(G.forward p).2.2 - (G.forward q).2.2| ≤ G.adist q p)
    (hx : x = round (G.forward p).1) (hy : y = round (G.forward p).2.1)
    (hz : z = round (G.forward p).2.2)
    (hdist : G.adist q p ≤ (distance : ℚ)) :
    cubeok G q (distance : ℚ) x y z = true ∧
    (∀ (c : ℚ) (n : ℤ),
      (c - (distance : ℚ) ≤ (n : ℚ) → round (c - (distance : ℚ)) ≤ n) ∧
      ((n : ℚ) ≤ c + (distance : ℚ) → n ≤ round (c + (distance : ℚ)))) := by
  refine ⟨cubeok_of_bounds G q p x y z _ hax hay haz hx hy hz hdist, ?_⟩
  intro c n
  exact ⟨fun h => le_round_of_le h, fun h => round_le_of_le h⟩

/-- Witness for C2 in the planar model at a concrete record. -/
theorem C2_cube_conservative_witness :
    cubeok G1 (0, 0) ((10 : ℤ) : ℚ) 3 4 0 = true ∧
    (∀ (c : ℚ) (n : ℤ),
      (c - ((10 : ℤ) : ℚ) ≤ (n : ℚ) → round (c - ((10 : ℤ) : ℚ)) ≤ n) ∧
      ((n : ℚ) ≤ c + ((10 : ℤ) : ℚ) → n ≤ round (c + ((10 : ℤ) : ℚ)))) :=
  C2_cube_conservative G1 (0, 0) (3, 4) 3 4 0 10 (by decide)
    (by with_unfolding_all decide) (by with_unfolding_all decide)
    (by with_unfolding_all decide) (by with_unfolding_all decide)
    (by with_unfolding_all decide) (by with_unfolding_all decide)
    (by with_unfolding_all decide)

/-- C1: under the geodesy collaborator's guarantees — per-axis geocentric
displacement never exceeds the ellipsoidal surface distance — and the
dataset invariant that stored integer coordinates are the rounded true
geocentric coordinates, `geosearch` returns exactly the identifiers of the
records whose surface distance to the query point is at most the radius, in
dataset order: the cube phase admits every true match and the distance
phase removes every false candidate. -/
theorem C1_result_iff_within (G : GeoModel) (locs : List Poploc) (distance : ℤ)
    (lat lon : ℚ)
    (hd : 1 ≤ distance ∧ distance ≤ 1000000) (hlat : -90 ≤ lat ∧ lat ≤ 90)
    (hlon : -180 ≤ lon ∧ lon ≤ 180)
    (hax : ∀ loc ∈ locs,
      |(G.forward (loc.lat, loc.lon)).1 - (G.forward (lat, lon)).1| ≤
        G.adist (lat, lon) (loc.lat, loc.lon) ∧
      |(G.forward (loc.lat, loc.lon)).2.1 - (G.forward (lat, lon)).2.1| ≤
        G.adist (lat, lon) (loc.lat, loc.lon) ∧
      |(G.forward (loc.lat, loc.lon)).2.2 - (G.forward (lat, lon)).2.2| ≤
        G.adist (lat, lon) (loc.lat, loc.lon))
    (hstored : ∀ loc ∈ locs,
      loc.x = round (G.forward (loc.lat, loc.lon)).1 ∧
      loc.y = round (G.forward (loc.lat, loc.lon)).2.1 ∧
      loc.z = round (G.forward (loc.lat, loc.lon)).2.2) :
    geosearch G (lat, lon) (distance : ℚ) locs =
      (locs.filter (fun loc =>
        decide (G.adist (lat, lon) (loc.lat, loc.lon) ≤ (distance : ℚ)))).map Poploc.id := by
  rw [geosearch_eq_filter_map, matchedLocs]
  congr 1
  apply List.filter_congr
  intro loc hloc
  by_cases hda : G.adist (lat, lon) (loc.lat, loc.lon) ≤ (distance : ℚ)
  · have hcube : cubeok G (lat, lon) (distance : ℚ) loc.x loc.y loc.z = true :=
      cubeok_of_bounds G (lat, lon) (loc.lat, loc.lon) loc.x loc.y loc.z _
        (hax loc hloc).1 (hax loc hloc).2.1 (hax loc hloc).2.2
        (hstored loc hloc).1 (hstored loc hloc).2.1 (hstored loc hloc).2.2 hda
    simp [geoaccept, hcube, hda]
  · simp [geoaccept, hda]

/-- Witness for C1 in the planar model: of two records, exactly the one at
the query point is within the radius and is the one returned. -/
theorem C1_result_iff_within_witness :
    geosearch G1 (0, 0) ((1 : ℤ) : ℚ) [locA, locB] =
      ([locA, locB].filter (fun loc =>
        decide (G1.adist (0, 0) (loc.lat, loc.lon) ≤ ((1 : ℤ) : ℚ)))).map Poploc.id :=
  C1_result_iff_within G1 [locA, locB] 1 0 0 (by decide) (by decide) (by decide)
    (by with_unfolding_all decide) (by with_unfolding_all decide)

theorem geoaccept_mono (G : GeoModel) (query : ℚ × ℚ) {d1 d2 : ℚ} (h : d1 ≤ d2)
    (loc : Poploc) (ha : geoaccept G query d1 loc = true) :
    geoaccept G query d2 loc = true := by
  simp only [geoaccept, cubeok, Bool.and_eq_true, decide_eq_true_eq] at ha ⊢
  obtain ⟨⟨⟨⟨hx1, hx2⟩, hy1, hy2⟩, hz1, hz2⟩, hda⟩ := ha
  refine ⟨⟨⟨⟨?_, ?_⟩, ?_, ?_⟩, ?_, ?_⟩, le_trans hda h⟩
  · exact le_trans (round_mono (by linarith)) hx1
  · exact le_trans hx2 (round_mono (by linarith))
  · exact le_trans (round_mono (by linarith)) hy1
  · exact le_trans hy2 (round_mono (by linarith))
  · exact le_trans (round_mono (by linarith)) hz1
  · exact le_trans hz2 (round_mono (by linarith))

/-- Component-wise order on result pyramids: every one of the 23 brackets
is no larger on the left than on the right. -/
def pyrLe (p q : pyramid) : Prop :=
  p.Age00to04 ≤ q.Age00to04 ∧ p.Age05to09 ≤ q.Age05to09 ∧
  p.Age10to14 ≤ q.Age10to14 ∧ p.Age15to17 ≤ q.Age15to17 ∧
  p.Age18to19 ≤ q.Age18to19 ∧ p.Age20 ≤ q.Age20 ∧ p.Age21 ≤ q.Age21 ∧
  p.Age22to24 ≤ q.Age22to24 ∧ p.Age25to29 ≤ q.Age25to29 ∧
  p.Age30to34 ≤ q.Age30to34 ∧ p.Age35to39 ≤ q.Age35to39 ∧
  p.Age40to44 ≤ q.Age40to44 ∧ p.Age45to49 ≤ q.Age45to49 ∧
  p.Age50to54 ≤ q.Age50to54 ∧ p.Age55to59 ≤ q.Age55to59 ∧
  p.Age60to61 ≤ q.Age60to61 ∧ p.Age62to64 ≤ q.Age62to64 ∧
  p.Age65to66 ≤ q.Age65to66 ∧ p.Age67to69 ≤ q.Age67to69 ∧
  p.Age70to74 ≤ q.Age70to74 ∧ p.Age75to79 ≤ q.Age75to79 ∧
  p.Age80to84 ≤ q.Age80to84 ∧ p.Age85over ≤ q.Age85over

theorem pyrLe_mkpyramid {f g : Fin 24 → ℤ} (h : ∀ k, f k ≤ g k) :
    pyrLe (mkpyramid f) (mkpyramid g) :=
  ⟨h 1, h 2, h 3, h 4, h 5, h 6, h 7, h 8, h 9, h 10, h 11, h 12, h 13, h 14,
   h 15, h 16, h 17, h 18, h 19, h 20, h 21, h 22, h 23⟩

theorem getD_nonneg {l : List ℤ} (h : ∀ a ∈ l, 0 ≤ a) (i : ℕ) : 0 ≤ l.getD i 0 := by
  induction l generalizing i with
  | nil => simp [List.getD]
  | cons a l ih =>
    cases i with
    | zero => simpa using h a (by simp)
    | succ i => simpa using ih (fun x hx => h x (by simp [hx])) i

theorem fieldSum_le_of_sublist {l1 l2 : List (List ℤ)} (h : List.Sublist l1 l2)
    (hnn : ∀ r ∈ l2, ∀ i, 0 ≤ r.getD i 0) (i : ℕ) :
    fieldSum l1 i ≤ fieldSum l2 i := by
  apply List.Sublist.sum_le_sum (h.map _)
  intro a ha
  obtain ⟨r, hr, rfl⟩ := List.mem_map.mp ha
  exact hnn r hr i

/-- C4: for a fixed query point and a total store of non-negative payloads,
growing the radius never shrinks the matched record list (it is a sublist
of the larger radius's matched list) and never decreases the matched count,
the population total, either gender total, or any pyramid bucket of the
returned result. -/
theorem C4_radius_monotone (G : GeoModel) (locs : List Poploc) (pay : String → List ℤ)
    (d1 d2 : ℤ) (lat lon : ℚ)
    (hd1 : 1 ≤ d1) (h12 : d1 ≤ d2) (hd2 : d2 ≤ 1000000)
    (hlat : -90 ≤ lat ∧ lat ≤ 90) (hlon : -180 ≤ lon ∧ lon ≤ 180)
    (hnn : ∀ s i, 0 ≤ (pay s).getD i 0) :
    List.Sublist (matchedLocs G (lat, lon) (d1 : ℚ) locs) (matchedLocs G (lat, lon) (d2 : ℚ) locs) ∧
    ∀ a1 a2, pop2010x G locs (fun s => some (pay s)) d1 lat lon = .ok a1 →
      pop2010x G locs (fun s => some (pay s)) d2 lat lon = .ok a2 →
      a1.blocks ≤ a2.blocks ∧ a1.pop2010 ≤ a2.pop2010 ∧ a1.mpop2010 ≤ a2.mpop2010 ∧
      a1.fpop2010 ≤ a2.fpop2010 ∧ pyrLe a1.mpyramid a2.mpyramid ∧
      pyrLe a1.fpyramid a2.fpyramid := by
  have hdc : ((d1 : ℚ)) ≤ (d2 : ℚ) := by exact_mod_cast h12
  have hsub : List.Sublist (matchedLocs G (lat, lon) (d1 : ℚ) locs)
      (matchedLocs G (lat, lon) (d2 : ℚ) locs) :=
    List.monotone_filter_right locs (fun loc h => geoaccept_mono G _ hdc loc h)
  refine ⟨hsub, ?_⟩
  intro a1 a2 h1 h2
  have e1 := pop2010x_total_eq G locs pay d1 lat lon ⟨hd1, le_trans h12 hd2⟩ hlat hlon
  have e2 := pop2010x_total_eq G locs pay d2 lat lon ⟨le_trans hd1 h12, hd2⟩ hlat hlon
  have ha1 := HResp.ok.inj (h1.symm.trans e1)
  have ha2 := HResp.ok.inj (h2.symm.trans e2)
  subst ha1 ha2
  have hmsub : List.Sublist ((matchedLocs G (lat, lon) (d1 : ℚ) locs).map (fun loc => pay loc.id))
      ((matchedLocs G (lat, lon) (d2 : ℚ) locs).map (fun loc => pay loc.id)) := hsub.map _
  have hnn2 : ∀ r ∈ (matchedLocs G (lat, lon) (d2 : ℚ) locs).map (fun loc => pay loc.id),
      ∀ i, 0 ≤ r.getD i 0 := by
    intro r hr i
    obtain ⟨loc, _, rfl⟩ := List.mem_map.mp hr
    exact hnn loc.id i
  exact ⟨hsub.length_le, fieldSum_le_of_sublist hmsub hnn2 0,
    fieldSum_le_of_sublist hmsub hnn2 1, fieldSum_le_of_sublist hmsub hnn2 25,
    pyrLe_mkpyramid (fun k => fieldSum_le_of_sublist hmsub hnn2 _),
    pyrLe_mkpyramid (fun k => fieldSum_le_of_sublist hmsub hnn2 _)⟩

theorem pay1_nonneg : ∀ (s : String) (i : ℕ), 0 ≤ (pay1 s).getD i 0 := by
  intro s i
  rcases i with _ | _ | i <;> simp [pay1, List.getD]

/-- Witness for C4: radii 1 and 200 at a concrete two-record dataset. -/
theorem C4_radius_monotone_witness :
    List.Sublist (matchedLocs G1 (0, 0) ((1 : ℤ) : ℚ) [locA, locB])
      (matchedLocs G1 (0, 0) ((200 : ℤ) : ℚ) [locA, locB]) ∧
    ∀ a1 a2, pop2010x G1 [locA, locB] (fun s => some (pay1 s)) 1 0 0 = .ok a1 →
      pop2010x G1 [locA, locB] (fun s => some (pay1 s)) 200 0 0 = .ok a2 →
      a1.blocks ≤ a2.blocks ∧ a1.pop2010 ≤ a2.pop2010 ∧ a1.mpop2010 ≤ a2.mpop2010 ∧
      a1.fpop2010 ≤ a2.fpop2010 ∧ pyrLe a1.mpyramid a2.mpyramid ∧
      pyrLe a1.fpyramid a2.fpyramid :=
  C4_radius_monotone G1 [locA, locB] pay1 1 200 0 0 (by decide) (by decide)
    (by decide) (by decide) (by decide) pay1_nonneg

/-- The resident location record a 151-byte binary record encodes: the same
identifier, population, geographic position and integer geocentric
coordinates, as the spatial-index realization keeps them. -/
def binToLoc (f64 : List ℕ → ℚ) (b : List ℕ) : Poploc :=
  ⟨decId b, decPop b, decLat f64 b, decLon f64 b, decX b, decY b, decZ b⟩

/-- The store payload of a binary record over the same logical dataset: the
49 comma-separated fields `popsummary` expects — total population, the 24
male 16-bit slots, the 24 female 16-bit slots, in order. -/
def binCsv (b : List ℕ) : List ℤ :=
  decPop b :: ((List.range 24).map (decMbucket b) ++ (List.range 24).map (decFbucket b))

/-- `wrap16` applied to every bracket of a result pyramid. -/
def pyrWrap16 (p : pyramid) : pyramid :=
  { Age00to04 := wrap16 p.Age00to04, Age05to09 := wrap16 p.Age05to09
    Age10to14 := wrap16 p.Age10to14, Age15to17 := wrap16 p.Age15to17
    Age18to19 := wrap16 p.Age18to19, Age20 := wrap16 p.Age20
    Age21 := wrap16 p.Age21, Age22to24 := wrap16 p.Age22to24
    Age25to29 := wrap16 p.Age25to29, Age30to34 := wrap16 p.Age30to34
    Age35to39 := wrap16 p.Age35to39, Age40to44 := wrap16 p.Age40to44
    Age45to49 := wrap16 p.Age45to49, Age50to54 := wrap16 p.Age50to54
    Age55to59 := wrap16 p.Age55to59, Age60to61 := wrap16 p.Age60to61
    Age62to64 := wrap16 p.Age62to64, Age65to66 := wrap16 p.Age65to66
    Age67to69 := wrap16 p.Age67to69, Age70to74 := wrap16 p.Age70to74
    Age75to79 := wrap16 p.Age75to79, Age80to84 := wrap16 p.Age80to84
    Age85over := wrap16 p.Age85over }

theorem pyrWrap16_mkpyramid (f : Fin 24 → ℤ) :
    pyrWrap16 (mkpyramid f) = mkpyramid (fun k => wrap16 (f k)) := rfl

theorem fieldSum_map (g : List ℕ → List ℤ) (l : List (List ℕ)) (i : ℕ) :
    fieldSum (l.map g) i = decSum (fun b => (g b).getD i 0) l := by
  rw [fieldSum, decSum, List.map_map]
  rfl

theorem binCsv_getD_succ (b : List ℕ) (k : ℕ) (hk : k < 24) :
    (binCsv b).getD (k + 1) 0 = decMbucket b k := by
  rw [binCsv, List.getD_cons_succ, List.getD_eq_getElem?_getD,
    List.getElem?_append_left (by simpa using hk), List.getElem?_map,
    List.getElem?_range hk]
  rfl

theorem binCsv_getD_25 (b : List ℕ) (k : ℕ) (hk : k < 24) :
    (binCsv b).getD (k + 25) 0 = decFbucket b k := by
  rw [show k + 25 = (k + 24) + 1 from rfl, binCsv, List.getD_cons_succ,
    List.getD_eq_getElem?_getD,
    List.getElem?_append_right (by simp), List.getElem?_map]
  simp only [List.length_map, List.length_range, Nat.add_sub_cancel]
  rw [List.getElem?_range hk]
  rfl

theorem filter_map_abs {α β : Type} (p : β → Bool) (f : α → β) (l : List α) :
    List.filter p (l.map f) = (l.filter (fun b => p (f b))).map f :=
  List.filter_map f l

/-- Full characterization of the extended binary scan handler on an
in-domain query. -/
theorem pop2010bin_ok_eq (G : GeoModel) (f64 : List ℕ → ℚ) (R : List (List ℕ))
    (distance : ℤ) (lat lon : ℚ)
    (hd : 1 ≤ distance ∧ distance ≤ 1000000) (hlat : -90 ≤ lat ∧ lat ≤ 90)
    (hlon : -180 ≤ lon ∧ lon ≤ 180) :
    pop2010bin G f64 R distance lat lon =
      .ok { distance := distance, lat := lat, lon := lon
            blocks := (matchedBin G f64 (lat, lon) (distance : ℚ) R).length
            pop2010 := wrap32 (decSum decPop (matchedBin G f64 (lat, lon) (distance : ℚ) R))
            fpop2010 := wrap32 (decSum decFpop (matchedBin G f64 (lat, lon) (distance : ℚ) R))
            mpop2010 := wrap32 (decSum decMpop (matchedBin G f64 (lat, lon) (distance : ℚ) R))
            fpyramid := mkpyramid (fun k =>
              wrap16 (decSum (decFbucket · k.val) (matchedBin G f64 (lat, lon) (distance : ℚ) R)))
            mpyramid := mkpyramid (fun k =>
              wrap16 (decSum (decMbucket · k.val) (matchedBin G f64 (lat, lon) (distance : ℚ) R))) } := by
  rw [pop2010bin, if_neg (not_not_intro hd), if_neg (not_not_intro hlat),
    if_neg (not_not_intro hlon)]
  dsimp only
  rw [extScan_fields]

/-- C6 amended: over the same logical dataset, the two realizations agree
on the matched-block count, and every aggregate of the extended binary scan
equals the spatial-index realization's exact aggregate reduced into the
scan's accumulator width — mod 2^32 signed for the population and gender
totals, mod 2^16 signed for every pyramid bucket.  (Exact equality of whole
results fails when a bucket sum overflows 16 bits.) -/
theorem C6_realizations_agree_mod_wrap (G : GeoModel) (f64 : List ℕ → ℚ)
    (R : List (List ℕ)) (payFn : String → List ℤ) (distance : ℤ) (lat lon : ℚ)
    (hd : 1 ≤ distance ∧ distance ≤ 1000000) (hlat : -90 ≤ lat ∧ lat ≤ 90)
    (hlon : -180 ≤ lon ∧ lon ≤ 180)
    (hdb : ∀ b ∈ R, payFn (decId b) = binCsv b) :
    ∀ rb ra, pop2010bin G f64 R distance lat lon = .ok rb →
      pop2010x G (R.map (binToLoc f64)) (fun s => some (payFn s)) distance lat lon = .ok ra →
      rb.blocks = ra.blocks ∧ rb.pop2010 = wrap32 ra.pop2010 ∧
      rb.mpop2010 = wrap32 ra.mpop2010 ∧ rb.fpop2010 = wrap32 ra.fpop2010 ∧
      rb.mpyramid = pyrWrap16 ra.mpyramid ∧ rb.fpyramid = pyrWrap16 ra.fpyramid := by
  intro rb ra h1 h2
  have e1 := pop2010bin_ok_eq G f64 R distance lat lon hd hlat hlon
  have e2 := pop2010x_total_eq G (R.map (binToLoc f64)) payFn distance lat lon hd hlat hlon
  have hrb := HResp.ok.inj (h1.symm.trans e1)
  have hra := HResp.ok.inj (h2.symm.trans e2)
  subst hrb hra
  have hfun : ∀ b, geoaccept G (lat, lon) (distance : ℚ) (binToLoc f64 b) =
      binaccept G f64 (lat, lon) (distance : ℚ) b := fun b => rfl
  have step1 : List.filter (geoaccept G (lat, lon) (distance : ℚ)) (R.map (binToLoc f64)) =
      (R.filter (fun b => geoaccept G (lat, lon) (distance : ℚ) (binToLoc f64 b))).map
        (binToLoc f64) :=
    filter_map_abs (geoaccept G (lat, lon) (distance : ℚ)) (binToLoc f64) R
  have step2 : R.filter (fun b => geoaccept G (lat, lon) (distance : ℚ) (binToLoc f64 b)) =
      R.filter (binaccept G f64 (lat, lon) (distance : ℚ)) :=
    List.filter_congr (fun b _ => hfun b)
  have hmat : matchedLocs G (lat, lon) (distance : ℚ) (R.map (binToLoc f64)) =
      (matchedBin G f64 (lat, lon) (distance : ℚ) R).map (binToLoc f64) :=
    step1.trans (congrArg (List.map (binToLoc f64)) step2)
  have hpay : (matchedLocs G (lat, lon) (distance : ℚ) (R.map (binToLoc f64))).map
        (fun loc => payFn loc.id) =
      (matchedBin G f64 (lat, lon) (distance : ℚ) R).map binCsv := by
    rw [hmat, List.map_map]
    apply List.map_congr_left
    intro b hb
    exact hdb b (List.mem_of_mem_filter hb)
  have hgd0 : (fun b : List ℕ => (binCsv b).getD 0 0) = decPop :=
    funext fun b => by rw [binCsv]; exact List.getD_cons_zero
  have hgd1 : (fun b : List ℕ => (binCsv b).getD 1 0) = fun b => decMbucket b 0 :=
    funext fun b => binCsv_getD_succ b 0 (by decide)
  have hgd25 : (fun b : List ℕ => (binCsv b).getD 25 0) = fun b => decFbucket b 0 :=
    funext fun b => binCsv_getD_25 b 0 (by decide)
  have hbks : ∀ k : Fin 24,
      (fun b : List ℕ => (binCsv b).getD (k.val + 1) 0) = fun b => decMbucket b k.val :=
    fun k => funext fun b => binCsv_getD_succ b k.val k.isLt
  have hbkf : ∀ k : Fin 24,
      (fun b : List ℕ => (binCsv b).getD (k.val + 25) 0) = fun b => decFbucket b k.val :=
    fun k => funext fun b => binCsv_getD_25 b k.val k.isLt
  refine ⟨?_, ?_, ?_, ?_, ?_, ?_⟩
  · dsimp only
    rw [hmat, List.length_map]
  · dsimp only
    rw [hpay, fieldSum_map, hgd0]
  · dsimp only
    rw [hpay, fieldSum_map, hgd1, show decMpop = fun b => decMbucket b 0 from rfl]
  · dsimp only
    rw [hpay, fieldSum_map, hgd25, show decFpop = fun b => decFbucket b 0 from rfl]
  · dsimp only
    rw [hpay, pyrWrap16_mkpyramid]
    simp only [fieldSum_map, hbks]
  · dsimp only
    rw [hpay, pyrWrap16_mkpyramid]
    simp only [fieldSum_map, hbkf]

/-- A concrete 151-byte record whose male age slot 1 (bytes 57-58) holds
20000 and whose every other byte is zero. -/
def b0 : List ℕ :=
  [0, 0, 0, 0, 0, 0, 0, 0, 0, 0, 0, 0, 0, 0, 0, 0, 0, 0, 0, 0, 0, 0, 0, 0, 0, 0, 0, 0, 0, 0, 0, 0, 0, 0, 0, 0, 0, 0, 0, 0, 0, 0, 0, 0, 0, 0, 0, 0, 0, 0, 0, 0, 0, 0, 0, 0, 0, 32, 78, 0, 0, 0, 0, 0, 0, 0, 0, 0, 0, 0, 0, 0, 0, 0, 0, 0, 0, 0, 0, 0, 0, 0, 0, 0, 0, 0, 0, 0, 0, 0, 0, 0, 0, 0, 0, 0, 0, 0, 0, 0, 0, 0, 0, 0, 0, 0, 0, 0, 0, 0, 0, 0, 0, 0, 0, 0, 0, 0, 0, 0, 0, 0, 0, 0, 0, 0, 0, 0, 0, 0, 0, 0, 0, 0, 0, 0, 0, 0, 0, 0, 0, 0, 0, 0, 0, 0, 0, 0, 0, 0, 0]

/-- A two-record binary dataset: the same block twice, so the true male
slot-1 sum is 40000, which overflows a signed 16-bit accumulator. -/
def R0 : List (List ℕ) := [b0, b0]

/-- The store holding the payload of `b0` under every key. -/
def pay0 : String → List ℤ := fun _ => binCsv b0

/-- The result of the extended binary scan over `R0`, as its
characterization lemma produces it. -/
def rbX : PopResult :=
  { distance := 1, lat := 0, lon := 0
    blocks := (matchedBin G0 f640 (0, 0) ((1 : ℤ) : ℚ) R0).length
    pop2010 := wrap32 (decSum decPop (matchedBin G0 f640 (0, 0) ((1 : ℤ) : ℚ) R0))
    fpop2010 := wrap32 (decSum decFpop (matchedBin G0 f640 (0, 0) ((1 : ℤ) : ℚ) R0))
    mpop2010 := wrap32 (decSum decMpop (matchedBin G0 f640 (0, 0) ((1 : ℤ) : ℚ) R0))
    fpyramid := mkpyramid (fun k =>
      wrap16 (decSum (decFbucket · k.val) (matchedBin G0 f640 (0, 0) ((1 : ℤ) : ℚ) R0)))
    mpyramid := mkpyramid (fun k =>
      wrap16 (decSum (decMbucket · k.val) (matchedBin G0 f640 (0, 0) ((1 : ℤ) : ℚ) R0))) }

/-- The result of the spatial-index-plus-store realization over the same
logical dataset, as its characterization lemma produces it. -/
def raX : PopResult :=
  { distance := 1, lat := 0, lon := 0
    blocks := (matchedLocs G0 (0, 0) ((1 : ℤ) : ℚ) (R0.map (binToLoc f640))).length
    pop2010 := fieldSum
      ((matchedLocs G0 (0, 0) ((1 : ℤ) : ℚ) (R0.map (binToLoc f640))).map
        (fun loc => pay0 loc.id)) 0
    fpop2010 := fieldSum
      ((matchedLocs G0 (0, 0) ((1 : ℤ) : ℚ) (R0.map (binToLoc f640))).map
        (fun loc => pay0 loc.id)) 25
    mpop2010 := fieldSum
      ((matchedLocs G0 (0, 0) ((1 : ℤ) : ℚ) (R0.map (binToLoc f640))).map
        (fun loc => pay0 loc.id)) 1
    fpyramid := mkpyramid (fun k => fieldSum
      ((matchedLocs G0 (0, 0) ((1 : ℤ) : ℚ) (R0.map (binToLoc f640))).map
        (fun loc => pay0 loc.id)) (k.val + 25))
    mpyramid := mkpyramid (fun k => fieldSum
      ((matchedLocs G0 (0, 0) ((1 : ℤ) : ℚ) (R0.map (binToLoc f640))).map
        (fun loc => pay0 loc.id)) (k.val + 1)) }

/-- C6 counterexample: over this dataset the two realizations disagree —
the binary scan's male slot-1 total wraps to -25536 while the store
realization reports 40000 — so the results are not equal. -/
theorem C6_realizations_cex :
    pop2010bin G0 f640 R0 1 0 0 ≠
      pop2010x G0 (R0.map (binToLoc f640)) (fun s => some (pay0 s)) 1 0 0 := by
  with_unfolding_all decide

/-- Witness for the amended C6 at the concrete dataset `R0`. -/
theorem C6_realizations_agree_mod_wrap_witness :
    rbX.blocks = raX.blocks ∧ rbX.pop2010 = wrap32 raX.pop2010 ∧
    rbX.mpop2010 = wrap32 raX.mpop2010 ∧ rbX.fpop2010 = wrap32 raX.fpop2010 ∧
    rbX.mpyramid = pyrWrap16 raX.mpyramid ∧ rbX.fpyramid = pyrWrap16 raX.fpyramid :=
  C6_realizations_agree_mod_wrap G0 f640 R0 pay0 1 0 0 (by decide) (by decide)
    (by decide) (by intro b hb; simp [R0] at hb; subst hb; rfl)
    rbX raX
    (pop2010bin_ok_eq G0 f640 R0 1 0 0 (by decide) (by decide) (by decide))
    (pop2010x_total_eq G0 (R0.map (binToLoc f640)) pay0 1 0 0 (by decide) (by decide)
      (by decide))

end Svc

example : Svc.round (53/10 : ℚ) = 6 := by with_unfolding_all decide
example : Svc.round (-53/10 : ℚ) = -6 := by with_unfolding_all decide
example : Svc.round (0 : ℚ) = 0 := by with_unfolding_all decide
